import Mathlib

/-!
Shallow embedding of the order-creation core of the `product-service`
repository (Go), covering:

* `internal/domain` — `Product`, `Order`, `OrderItem`;
* `internal/repository/postgres` — `ProductRepository.FindByIDTx`
  (`SELECT ... WHERE id = $1 FOR UPDATE`), `ProductRepository.UpdateTx`
  (`UPDATE products SET quantity = $2 WHERE id = $1`),
  `ProductRepository.Update` (full-row update), `OrderRepository.CreateTx`
  (insert order header, then every item row);
* `internal/service/order.go` — `OrderService.CreateOrder`.

Modelling decisions:
* UUIDs are modelled as natural numbers drawn from a generator counter
  `gen` threaded through the call (`uuid.New()` for the order id first,
  then one per item, in source order).
* `float64` prices are modelled as exact rationals `ℚ`; IEEE rounding is
  out of scope, the accumulation structure of the code is kept exactly.
* Go `int` quantities are modelled as `Int` (they may go negative).
* The committed database is a `DB` value; a transaction holds a private
  copy of it, and only `Commit` publishes the copy.  Error returns leave
  the committed `DB` untouched (nothing commits before step 6).
* Infrastructure failures (begin, the n-th `UpdateTx` call, the order
  insert, commit, rollback) are driven by a `Faults` oracle.
* Crucially, the Go source shadows `err` inside the item loop
  (`product, err := s.productRepo.FindByIDTx(...)` declares a fresh `err`
  in the loop block), so the deferred `tx.Rollback` — which tests the
  function-scope `err` — does NOT run when the loop returns an error.
  The embedding records this in the `rollbackAttempted` observable.
-/

/-- `domain.Product` (internal/domain). -/
structure Product where
  ID : Nat
  Description : String
  Tags : List String
  Quantity : Int
  Price : ℚ
deriving Repr, DecidableEq

/-- `domain.OrderItem` (internal/domain/order.go). -/
structure OrderItem where
  ID : Nat
  ProductID : Nat
  Quantity : Int
  PriceAtPurchase : ℚ
deriving Repr, DecidableEq

/-- `domain.Order` (internal/domain/order.go).  `CreatedAt` is an abstract
timestamp. -/
structure Order where
  ID : Nat
  UserID : Nat
  Items : List OrderItem
  CreatedAt : Nat
  TotalAmount : ℚ
deriving Repr, DecidableEq

/-- A committed row of the `orders` table (migrations/000001_init.up.sql). -/
structure OrderRow where
  id : Nat
  user_id : Nat
  created_at : Nat
  total_amount : ℚ
deriving Repr, DecidableEq

/-- A committed row of the `order_items` table. -/
structure OrderItemRow where
  id : Nat
  order_id : Nat
  product_id : Nat
  quantity : Int
  price_at_purchase : ℚ
deriving Repr, DecidableEq

/-- The relational store: `products`, `orders`, `order_items` tables.
Used both for the committed state and for a transaction's private view. -/
structure DB where
  products : List Product
  orders : List OrderRow
  order_items : List OrderItemRow
deriving Repr, DecidableEq

/-- `OrderItemInput` (internal/service/order.go). -/
structure OrderItemInput where
  ProductID : Nat
  Quantity : Int
deriving Repr, DecidableEq

/-- Fault oracle for the infrastructure operations used by
`OrderService.CreateOrder`: `Begin`, the n-th `UpdateTx` statement, the
order insert (`OrderRepository.CreateTx`), `Commit`, `Rollback`. -/
structure Faults where
  beginFails : Bool
  updateFails : Nat → Bool
  insertFails : Bool
  commitFails : Bool
  rollbackFails : Bool

/-- All infrastructure operations succeed. -/
def noFaults : Faults :=
  { beginFails := false, updateFails := fun _ => false, insertFails := false,
    commitFails := false, rollbackFails := false }

/-- Errors surfaced by the order workflow. -/
inductive OrderError where
  | beginFailed
  | productNotFound
  | insufficientStock
  | updateFailed
  | createFailed
  | commitFailed
deriving Repr, DecidableEq

namespace ProductRepository

/-- `SELECT id, description, tags, quantity, price FROM products WHERE id = $1
FOR UPDATE`, scanned inside the transaction `tx`; `pgx.ErrNoRows` is mapped
to `repository.ErrProductNotFound` (= `none` here).
(`ProductRepository.FindByIDTx`, internal/repository/postgres.) -/
def FindByIDTx (tx : DB) (id : Nat) : Option Product :=
  tx.products.find? (fun p => p.ID == id)

/-- `UPDATE products SET quantity = $2 WHERE id = $1` inside `tx`: every row
whose id matches gets the new quantity, all other columns and rows are left
as they are; a non-matching id updates zero rows without error.
(`ProductRepository.UpdateTx`, internal/repository/postgres.) -/
def UpdateTx (tx : DB) (product : Product) : DB :=
  { tx with
    products := tx.products.map (fun p =>
      if p.ID == product.ID then { p with Quantity := product.Quantity } else p) }

/-- `UPDATE products SET description = $2, tags = $3, quantity = $4,
price = $5 WHERE id = $1` on the committed store.
(`ProductRepository.Update`, internal/repository/postgres.) -/
def Update (db : DB) (product : Product) : DB :=
  { db with
    products := db.products.map (fun p =>
      if p.ID == product.ID then
        { p with Description := product.Description, Tags := product.Tags,
                 Quantity := product.Quantity, Price := product.Price }
      else p) }

end ProductRepository

namespace OrderRepository

/-- `OrderRepository.CreateTx` (internal/repository/postgres): inside `tx`,
insert the order header row, then insert one `order_items` row per item. -/
def CreateTx (tx : DB) (order : Order) : DB :=
  { tx with
    orders := tx.orders ++ [{ id := order.ID, user_id := order.UserID,
                              created_at := order.CreatedAt,
                              total_amount := order.TotalAmount }],
    order_items := tx.order_items ++ order.Items.map (fun it =>
      { id := it.ID, order_id := order.ID, product_id := it.ProductID,
        quantity := it.Quantity, price_at_purchase := it.PriceAtPurchase }) }

end OrderRepository

namespace OrderService

/-- The mutable state of the `for _, item := range items` loop in
`OrderService.CreateOrder`: the transaction's private view `tx`, the
accumulated `order.Items`, the running `totalAmount`, the uuid generator,
and the count of `UpdateTx` calls issued so far (to address the fault
oracle). -/
structure LoopState where
  tx : DB
  items : List OrderItem
  total : ℚ
  gen : Nat
  updateCalls : Nat
deriving Repr

/-- The loop state right after `Begin`: the transaction sees the committed
state, the order id `gen` is already consumed by `uuid.New()` at line 71. -/
def initState (db : DB) (gen : Nat) : LoopState :=
  { tx := db, items := [], total := 0, gen := gen + 1, updateCalls := 0 }

/-- The body of the item loop of `OrderService.CreateOrder`
(internal/service/order.go lines 77–107), one item at a time:
locked read (absent → `ErrProductNotFound`); availability check
(`product.Quantity < item.Quantity` → `ErrInsufficientStock`);
`product.Quantity -= item.Quantity` persisted via `UpdateTx` (may fail);
append the order item with `PriceAtPurchase = product.Price`;
`totalAmount += product.Price * float64(item.Quantity)`. -/
def processItems (faults : Faults) (st : LoopState) :
    List OrderItemInput → Except OrderError LoopState
  | [] => .ok st
  | item :: rest =>
    match ProductRepository.FindByIDTx st.tx item.ProductID with
    | none => .error .productNotFound
    | some product =>
      if product.Quantity < item.Quantity then
        .error .insufficientStock
      else if faults.updateFails st.updateCalls then
        .error .updateFailed
      else
        processItems faults
          { tx := ProductRepository.UpdateTx st.tx
                    { product with Quantity := product.Quantity - item.Quantity },
            items := st.items ++ [{ ID := st.gen, ProductID := item.ProductID,
                                    Quantity := item.Quantity,
                                    PriceAtPurchase := product.Price }],
            total := st.total + product.Price * (item.Quantity : ℚ),
            gen := st.gen + 1,
            updateCalls := st.updateCalls + 1 } rest

/-- What a call to `OrderService.CreateOrder` produces: the returned value
or error, the committed database afterwards, and two observables of the
deferred-rollback closure: whether `tx.Rollback` was called, and whether a
rollback failure was logged. -/
structure CreateResult where
  result : Except OrderError Order
  db : DB
  rollbackAttempted : Bool
  rollbackFailureLogged : Bool
deriving Repr

/-- `OrderService.CreateOrder` (internal/service/order.go lines 52–122).

The deferred closure rolls the transaction back only when the
function-scope `err` is non-nil at return.  Inside the loop,
`product, err := ...` declares a fresh `err` in the loop block, so every
error return from the loop (lookup, stock check, quantity update) leaves
the function-scope `err` nil and the rollback is skipped; only the order
insert (line 112) and commit (line 117) assign the function-scope `err`
and hence trigger the rollback attempt.  Either way nothing was committed,
so the committed `db` is returned unchanged on every error path. -/
def CreateOrder (faults : Faults) (gen : Nat) (db : DB) (userID : Nat)
    (now : Nat) (items : List OrderItemInput) : CreateResult :=
  if faults.beginFails then
    { result := .error .beginFailed, db := db,
      rollbackAttempted := false, rollbackFailureLogged := false }
  else
    match processItems faults (initState db gen) items with
    | .error e =>
      { result := .error e, db := db,
        rollbackAttempted := false, rollbackFailureLogged := false }
    | .ok st =>
      let order : Order :=
        { ID := gen, UserID := userID, Items := st.items,
          CreatedAt := now, TotalAmount := st.total }
      if faults.insertFails then
        { result := .error .createFailed, db := db,
          rollbackAttempted := true, rollbackFailureLogged := faults.rollbackFails }
      else if faults.commitFails then
        { result := .error .commitFailed, db := db,
          rollbackAttempted := true, rollbackFailureLogged := faults.rollbackFails }
      else
        { result := .ok order, db := OrderRepository.CreateTx st.tx order,
          rollbackAttempted := false, rollbackFailureLogged := false }

end OrderService

/-- The price column of the row a locked read of `id` would return. -/
def priceAt (db : DB) (id : Nat) : Option ℚ :=
  (ProductRepository.FindByIDTx db id).map (fun p => p.Price)

/-- A sample catalog row used by concrete witnesses. -/
def sampleProduct : Product :=
  { ID := 1, Description := "s", Tags := [], Quantity := 10, Price := 5 }

/-- A sample committed database used by concrete witnesses. -/
def sampleDB : DB :=
  { products := [sampleProduct], orders := [], order_items := [] }

/-- The order produced by a successful sample call (user 7 orders three
units of product 1 with generator counter 0). -/
def sampleOrder : Order :=
  { ID := 0, UserID := 7,
    Items := [{ ID := 1, ProductID := 1, Quantity := 3, PriceAtPurchase := 5 }],
    CreatedAt := 0, TotalAmount := 0 + 5 * 3 }

/-! ### Helper lemmas -/

/-- A map that preserves the id column commutes with lookup by id. -/
lemma find?_map_of_ID_eq (f : Product → Product) (hf : ∀ p, (f p).ID = p.ID)
    (l : List Product) (id : Nat) :
    (l.map f).find? (fun p => p.ID == id) = (l.find? (fun p => p.ID == id)).map f := by
  rw [List.find?_map]
  have hpred : ((fun p => p.ID == id) ∘ f) = (fun p => p.ID == id) := by
    funext p
    simp [Function.comp, hf p]
  rw [hpred]

/-- `UpdateTx` rewrites only the quantity column, so a locked read after it
returns the same row with at most the quantity changed. -/
lemma FindByIDTx_UpdateTx (tx : DB) (prod : Product) (id : Nat) :
    ProductRepository.FindByIDTx (ProductRepository.UpdateTx tx prod) id =
      (ProductRepository.FindByIDTx tx id).map (fun p =>
        if p.ID == prod.ID then { p with Quantity := prod.Quantity } else p) := by
  unfold ProductRepository.FindByIDTx ProductRepository.UpdateTx
  exact find?_map_of_ID_eq _ (fun p => by by_cases h : (p.ID == prod.ID) <;> simp [h]) _ _

/-- `UpdateTx` never changes any product's price. -/
lemma priceAt_UpdateTx (tx : DB) (prod : Product) (id : Nat) :
    priceAt (ProductRepository.UpdateTx tx prod) id = priceAt tx id := by
  unfold priceAt
  rw [FindByIDTx_UpdateTx, Option.map_map]
  cases ProductRepository.FindByIDTx tx id with
  | none => rfl
  | some p =>
    simp only [Option.map_some', Function.comp_apply]
    split <;> rfl

/-- Splitting the item loop at an arbitrary point. -/
lemma processItems_append (faults : Faults) (l1 l2 : List OrderItemInput) :
    ∀ st, OrderService.processItems faults st (l1 ++ l2) =
      match OrderService.processItems faults st l1 with
      | .ok st' => OrderService.processItems faults st' l2
      | .error e => .error e := by
  induction l1 with
  | nil => intro st; rfl
  | cons item rest ih =>
    intro st
    rw [List.cons_append]
    simp only [OrderService.processItems]
    cases hfind : ProductRepository.FindByIDTx st.tx item.ProductID with
    | none => rfl
    | some product =>
      by_cases hq : product.Quantity < item.Quantity
      · simp [hq]
      · by_cases hu : faults.updateFails st.updateCalls
        · simp [hq, hu]
        · simp only [if_neg hq, if_neg hu]
          exact ih _

/-- Everything a successful run of the item loop guarantees: the produced
items extend the accumulator, the running total grows by exactly the sum of
price-at-purchase times quantity over the new items, every new item's
price-at-purchase is the price the locked read returned at loop entry,
prices (and the orders and order-items tables) are untouched by the loop,
and non-negativity of the stock is preserved. -/
lemma processItems_ok_spec (faults : Faults) (l : List OrderItemInput) :
    ∀ st st', OrderService.processItems faults st l = .ok st' →
      (∃ more, st'.items = st.items ++ more
        ∧ st'.total = st.total +
            (more.map (fun it => it.PriceAtPurchase * (it.Quantity : ℚ))).sum
        ∧ (∀ it ∈ more, priceAt st.tx it.ProductID = some it.PriceAtPurchase))
      ∧ (∀ id, priceAt st'.tx id = priceAt st.tx id)
      ∧ st'.tx.orders = st.tx.orders
      ∧ st'.tx.order_items = st.tx.order_items
      ∧ ((∀ p ∈ st.tx.products, 0 ≤ p.Quantity) →
          ∀ p ∈ st'.tx.products, 0 ≤ p.Quantity) := by
  induction l with
  | nil =>
    intro st st' h
    rw [OrderService.processItems] at h
    cases h
    exact ⟨⟨[], by simp, by simp, by simp⟩, fun id => rfl, rfl, rfl, fun hnn => hnn⟩
  | cons item rest ih =>
    intro st st' h
    rw [OrderService.processItems] at h
    cases hfind : ProductRepository.FindByIDTx st.tx item.ProductID with
    | none => simp [hfind] at h
    | some product =>
      simp only [hfind] at h
      by_cases hq : product.Quantity < item.Quantity
      · simp [hq] at h
      · rw [if_neg hq] at h
        by_cases hu : faults.updateFails st.updateCalls
        · simp [hu] at h
        · rw [if_neg hu] at h
          obtain ⟨⟨more1, hitems, htotal, hprices⟩, hpr, hord, hoit, hnn⟩ := ih _ _ h
          have hqle : item.Quantity ≤ product.Quantity := le_of_not_lt hq
          refine ⟨⟨{ ID := st.gen, ProductID := item.ProductID,
                     Quantity := item.Quantity,
                     PriceAtPurchase := product.Price } :: more1, ?_, ?_, ?_⟩,
                  ?_, ?_, ?_, ?_⟩
          · rw [hitems]
            simp
          · rw [htotal]
            simp only [List.map_cons, List.sum_cons]
            ring
          · intro it hit
            rcases List.mem_cons.1 hit with rfl | hmem
            · unfold priceAt
              rw [hfind]
              rfl
            · have := hprices it hmem
              rwa [show (OrderService.LoopState.tx
                { tx := ProductRepository.UpdateTx st.tx
                    { product with Quantity := product.Quantity - item.Quantity },
                  items := st.items ++ [{ ID := st.gen, ProductID := item.ProductID,
                                          Quantity := item.Quantity,
                                          PriceAtPurchase := product.Price }],
                  total := st.total + product.Price * (item.Quantity : ℚ),
                  gen := st.gen + 1, updateCalls := st.updateCalls + 1 }) =
                ProductRepository.UpdateTx st.tx
                  { product with Quantity := product.Quantity - item.Quantity } from rfl,
                priceAt_UpdateTx] at this
          · intro id
            rw [hpr id]
            exact priceAt_UpdateTx st.tx _ id
          · exact hord
          · exact hoit
          · intro h0
            apply hnn
            intro p hp
            rcases List.mem_map.1 hp with ⟨q, hqmem, rfl⟩
            by_cases hid : (q.ID == product.ID)
            · rw [if_pos hid]
              exact Int.sub_nonneg.mpr hqle
            · rw [if_neg hid]
              exact h0 q hqmem

/-- Any error return of `CreateOrder` leaves the committed database exactly
as it was: no branch before `Commit` writes to it. -/
lemma CreateOrder_error_db (faults : Faults) (gen : Nat) (db : DB)
    (userID now : Nat) (items : List OrderItemInput) (e : OrderError)
    (h : (OrderService.CreateOrder faults gen db userID now items).result =
      .error e) :
    (OrderService.CreateOrder faults gen db userID now items).db = db := by
  unfold OrderService.CreateOrder at h ⊢
  by_cases hb : faults.beginFails
  · simp [hb]
  · simp only [if_neg hb] at h ⊢
    cases hp : OrderService.processItems faults (OrderService.initState db gen) items with
    | error e2 => simp [hp]
    | ok st =>
      simp only [hp] at h ⊢
      by_cases hi : faults.insertFails
      · simp [hi]
      · by_cases hc : faults.commitFails
        · simp [hi, hc]
        · simp only [if_neg hi, if_neg hc] at h
          exact absurd h (by simp)

/-- A successful `CreateOrder` call is exactly: the loop succeeded, the
returned order is assembled from the loop state, and the committed database
is the transaction view with the order inserted. -/
lemma CreateOrder_ok_spec (faults : Faults) (gen : Nat) (db : DB)
    (userID now : Nat) (items : List OrderItemInput) (order : Order)
    (h : (OrderService.CreateOrder faults gen db userID now items).result =
      .ok order) :
    ∃ st, OrderService.processItems faults (OrderService.initState db gen) items = .ok st
      ∧ order = { ID := gen, UserID := userID, Items := st.items,
                  CreatedAt := now, TotalAmount := st.total }
      ∧ (OrderService.CreateOrder faults gen db userID now items).db =
          OrderRepository.CreateTx st.tx order := by
  unfold OrderService.CreateOrder at h ⊢
  by_cases hb : faults.beginFails
  · simp [hb] at h
  · simp only [if_neg hb] at h ⊢
    cases hp : OrderService.processItems faults (OrderService.initState db gen) items with
    | error e2 => simp [hp] at h
    | ok st =>
      simp only [hp] at h ⊢
      by_cases hi : faults.insertFails
      · simp [hi] at h
      · by_cases hc : faults.commitFails
        · simp [hi, hc] at h
        · simp only [if_neg hi, if_neg hc] at h ⊢
          simp only [Except.ok.injEq] at h
          exact ⟨st, rfl, h.symm, by rw [h]⟩

/-! ### Claim theorems -/

/-- Claim C1 — Atomicity of order creation: whenever `CreateOrder` returns
an error at any step (product lookup, stock check, quantity update, order
insert, or commit), the committed state afterwards is exactly the state
before the call — in particular no product quantity differs and, provided
the freshly generated order id was not already present, no order row exists
for the attempted order. -/
theorem CreateOrder_error_atomic (faults : Faults) (gen : Nat) (db : DB)
    (userID now : Nat) (items : List OrderItemInput) (e : OrderError)
    (h : (OrderService.CreateOrder faults gen db userID now items).result =
      .error e) :
    (OrderService.CreateOrder faults gen db userID now items).db = db
    ∧ ((∀ o ∈ db.orders, o.id ≠ gen) →
        ∀ o ∈ (OrderService.CreateOrder faults gen db userID now items).db.orders,
          o.id ≠ gen) := by
  have hdb := CreateOrder_error_db faults gen db userID now items e h
  exact ⟨hdb, fun hfresh o ho => hfresh o (by rwa [hdb] at ho)⟩

/-- Witness for C1: an insufficient-stock failure at a concrete database
leaves the concrete database untouched. -/
theorem CreateOrder_error_atomic_witness :
    (OrderService.CreateOrder noFaults 0
      { products := [{ ID := 1, Description := "d", Tags := [], Quantity := 5, Price := 10 }],
        orders := [], order_items := [] } 7 0
      [{ ProductID := 1, Quantity := 10 }]).result =
        Except.error OrderError.insufficientStock
    ∧ ((OrderService.CreateOrder noFaults 0
      { products := [{ ID := 1, Description := "d", Tags := [], Quantity := 5, Price := 10 }],
        orders := [], order_items := [] } 7 0
      [{ ProductID := 1, Quantity := 10 }]).db =
        { products := [{ ID := 1, Description := "d", Tags := [], Quantity := 5, Price := 10 }],
          orders := [], order_items := [] }
      ∧ ((∀ o ∈ (DB.orders { products := [{ ID := 1, Description := "d", Tags := [], Quantity := 5, Price := 10 }], orders := [], order_items := [] }), o.id ≠ 0) →
          ∀ o ∈ (OrderService.CreateOrder noFaults 0
            { products := [{ ID := 1, Description := "d", Tags := [], Quantity := 5, Price := 10 }],
              orders := [], order_items := [] } 7 0
            [{ ProductID := 1, Quantity := 10 }]).db.orders, o.id ≠ 0)) :=
  ⟨rfl, CreateOrder_error_atomic noFaults 0 _ 7 0 _ OrderError.insufficientStock rfl⟩

/-- Claim C2 — Insufficient stock: if, at the point an item is processed
(i.e. after some prefix of the items went through), the locked read finds
its product but the available quantity is strictly below the requested
quantity, the whole call fails with the insufficient-stock error and the
committed state — product quantities and order rows — is unchanged. -/
theorem CreateOrder_insufficient_stock (faults : Faults) (gen : Nat) (db : DB)
    (userID now : Nat) (pre rest : List OrderItemInput) (bad : OrderItemInput)
    (st : OrderService.LoopState) (product : Product)
    (hbegin : faults.beginFails = false)
    (hpre : OrderService.processItems faults (OrderService.initState db gen) pre =
      .ok st)
    (hfind : ProductRepository.FindByIDTx st.tx bad.ProductID = some product)
    (hqty : product.Quantity < bad.Quantity) :
    (OrderService.CreateOrder faults gen db userID now (pre ++ bad :: rest)).result =
      .error .insufficientStock
    ∧ (OrderService.CreateOrder faults gen db userID now (pre ++ bad :: rest)).db = db := by
  have hrun : OrderService.processItems faults (OrderService.initState db gen)
      (pre ++ bad :: rest) = .error .insufficientStock := by
    rw [processItems_append faults pre (bad :: rest)]
    simp only [hpre]
    rw [OrderService.processItems]
    simp [hfind, hqty]
  have hres : (OrderService.CreateOrder faults gen db userID now
      (pre ++ bad :: rest)).result = .error .insufficientStock := by
    unfold OrderService.CreateOrder
    simp [hbegin, hrun]
  exact ⟨hres, CreateOrder_error_db _ _ _ _ _ _ _ hres⟩

/-- Witness for C2: product with quantity 5, one item requesting 10
(Scenario B) — the call fails with insufficient stock and the database is
unchanged. -/
theorem CreateOrder_insufficient_stock_witness :
    noFaults.beginFails = false
    ∧ OrderService.processItems noFaults
        (OrderService.initState
          { products := [{ ID := 1, Description := "b", Tags := [], Quantity := 5, Price := 10 }],
            orders := [], order_items := [] } 0) [] =
        .ok (OrderService.initState
          { products := [{ ID := 1, Description := "b", Tags := [], Quantity := 5, Price := 10 }],
            orders := [], order_items := [] } 0)
    ∧ ((OrderService.CreateOrder noFaults 0
        { products := [{ ID := 1, Description := "b", Tags := [], Quantity := 5, Price := 10 }],
          orders := [], order_items := [] } 7 0
        ([] ++ { ProductID := 1, Quantity := 10 } :: [])).result =
          .error .insufficientStock
      ∧ (OrderService.CreateOrder noFaults 0
        { products := [{ ID := 1, Description := "b", Tags := [], Quantity := 5, Price := 10 }],
          orders := [], order_items := [] } 7 0
        ([] ++ { ProductID := 1, Quantity := 10 } :: [])).db =
        { products := [{ ID := 1, Description := "b", Tags := [], Quantity := 5, Price := 10 }],
          orders := [], order_items := [] }) :=
  ⟨rfl, rfl,
    CreateOrder_insufficient_stock noFaults 0 _ 7 0 [] [] _ _
      { ID := 1, Description := "b", Tags := [], Quantity := 5, Price := 10 }
      rfl rfl rfl (by decide)⟩

/-- Claim C6 — Product not found: if every item of some prefix was processed
successfully and the locked read of the next item's product finds no row,
the whole call fails with the product-not-found error and the committed
state is unchanged — the decrements already applied for the earlier items
are not visible afterwards. -/
theorem CreateOrder_product_not_found (faults : Faults) (gen : Nat) (db : DB)
    (userID now : Nat) (pre rest : List OrderItemInput) (bad : OrderItemInput)
    (st : OrderService.LoopState)
    (hbegin : faults.beginFails = false)
    (hpre : OrderService.processItems faults (OrderService.initState db gen) pre =
      .ok st)
    (hfind : ProductRepository.FindByIDTx st.tx bad.ProductID = none) :
    (OrderService.CreateOrder faults gen db userID now (pre ++ bad :: rest)).result =
      .error .productNotFound
    ∧ (OrderService.CreateOrder faults gen db userID now (pre ++ bad :: rest)).db = db := by
  have hrun : OrderService.processItems faults (OrderService.initState db gen)
      (pre ++ bad :: rest) = .error .productNotFound := by
    rw [processItems_append faults pre (bad :: rest)]
    simp only [hpre]
    rw [OrderService.processItems]
    simp [hfind]
  have hres : (OrderService.CreateOrder faults gen db userID now
      (pre ++ bad :: rest)).result = .error .productNotFound := by
    unfold OrderService.CreateOrder
    simp [hbegin, hrun]
  exact ⟨hres, CreateOrder_error_db _ _ _ _ _ _ _ hres⟩

/-- Witness for C6 (Scenario D): two line items, the first one in stock, the
second one's product absent — the call fails with not-found and the first
item's decrement is rolled back (the committed database is unchanged). -/
theorem CreateOrder_product_not_found_witness :
    noFaults.beginFails = false
    ∧ OrderService.processItems noFaults
        (OrderService.initState
          { products := [{ ID := 1, Description := "a", Tags := [], Quantity := 5, Price := 2 }],
            orders := [], order_items := [] } 0) [{ ProductID := 1, Quantity := 1 }] =
        .ok { tx := ProductRepository.UpdateTx
                { products := [{ ID := 1, Description := "a", Tags := [], Quantity := 5, Price := 2 }],
                  orders := [], order_items := [] }
                { ID := 1, Description := "a", Tags := [], Quantity := 4, Price := 2 },
              items := [{ ID := 1, ProductID := 1, Quantity := 1, PriceAtPurchase := 2 }],
              total := 0 + 2 * (1 : ℚ), gen := 2, updateCalls := 1 }
    ∧ ((OrderService.CreateOrder noFaults 0
        { products := [{ ID := 1, Description := "a", Tags := [], Quantity := 5, Price := 2 }],
          orders := [], order_items := [] } 7 0
        ([{ ProductID := 1, Quantity := 1 }] ++ { ProductID := 9, Quantity := 1 } :: [])).result =
          .error .productNotFound
      ∧ (OrderService.CreateOrder noFaults 0
        { products := [{ ID := 1, Description := "a", Tags := [], Quantity := 5, Price := 2 }],
          orders := [], order_items := [] } 7 0
        ([{ ProductID := 1, Quantity := 1 }] ++ { ProductID := 9, Quantity := 1 } :: [])).db =
        { products := [{ ID := 1, Description := "a", Tags := [], Quantity := 5, Price := 2 }],
          orders := [], order_items := [] }) :=
  ⟨rfl, rfl,
    CreateOrder_product_not_found noFaults 0 _ 7 0
      [{ ProductID := 1, Quantity := 1 }] [] { ProductID := 9, Quantity := 1 } _
      rfl rfl rfl⟩

/-- Claim C3 — the code, not the claim, is wrong here: because the loop's
`product, err := ...` shadows the function-scope `err` consulted by the
deferred rollback, an error from the locked read (and likewise from the
stock check or the quantity update) is returned WITHOUT any rollback
attempt, contradicting both the claim and the function's own comment
("On any error, the transaction is rolled back").  At the concrete failing
input below — one item whose product does not exist — the call returns the
product-not-found error with no rollback attempted. -/
theorem CreateOrder_loop_error_skips_rollback :
    (OrderService.CreateOrder noFaults 0
      { products := [{ ID := 1, Description := "w", Tags := [], Quantity := 5, Price := 10 }],
        orders := [], order_items := [] } 7 0
      [{ ProductID := 2, Quantity := 1 }]).result =
        Except.error OrderError.productNotFound
    ∧ (OrderService.CreateOrder noFaults 0
      { products := [{ ID := 1, Description := "w", Tags := [], Quantity := 5, Price := 10 }],
        orders := [], order_items := [] } 7 0
      [{ ProductID := 2, Quantity := 1 }]).rollbackAttempted = false :=
  ⟨rfl, rfl⟩

/-- Claim C4 — Price snapshot: on every successful call, each returned line
item's price-at-purchase is exactly the price of its product as the locked
read saw it in this transaction (equal to the committed price at call
entry, since the loop never writes prices); the stored order-item rows
carry exactly those prices; and a later full-row product update never
touches the `order_items` table, so `price_at_purchase` of previously
created items is unaffected by price changes. -/
theorem CreateOrder_price_snapshot (faults : Faults) (gen : Nat) (db : DB)
    (userID now : Nat) (items : List OrderItemInput) (order : Order)
    (h : (OrderService.CreateOrder faults gen db userID now items).result =
      .ok order) :
    (∀ it ∈ order.Items, priceAt db it.ProductID = some it.PriceAtPurchase)
    ∧ (OrderService.CreateOrder faults gen db userID now items).db.order_items =
        db.order_items ++ order.Items.map (fun it =>
          { id := it.ID, order_id := order.ID, product_id := it.ProductID,
            quantity := it.Quantity, price_at_purchase := it.PriceAtPurchase })
    ∧ (∀ prod db2, (ProductRepository.Update db2 prod).order_items =
        db2.order_items) := by
  obtain ⟨st, hp, horder, hdb⟩ :=
    CreateOrder_ok_spec faults gen db userID now items order h
  obtain ⟨⟨more, hitems, htotal, hprices⟩, hpr, hord, hoit, hnn⟩ :=
    processItems_ok_spec faults items _ _ hp
  have hitems' : st.items = more := by simpa using hitems
  refine ⟨?_, ?_, fun prod db2 => rfl⟩
  · intro it hit
    have hmem : it ∈ more := by
      rw [horder] at hit
      simpa [hitems'] using hit
    exact hprices it hmem
  · rw [hdb, horder]
    show st.tx.order_items ++ _ = _
    rw [hoit, hitems']
    rfl

/-- Witness for C4: the sample successful call; each item of the returned
order carries the catalog price 5, the stored rows are exactly the item
rows, and full-row updates leave `order_items` alone. -/
theorem CreateOrder_price_snapshot_witness :
    (OrderService.CreateOrder noFaults 0 sampleDB 7 0
      [{ ProductID := 1, Quantity := 3 }]).result = Except.ok sampleOrder
    ∧ ((∀ it ∈ sampleOrder.Items, priceAt sampleDB it.ProductID =
          some it.PriceAtPurchase)
      ∧ (OrderService.CreateOrder noFaults 0 sampleDB 7 0
          [{ ProductID := 1, Quantity := 3 }]).db.order_items =
          sampleDB.order_items ++ sampleOrder.Items.map (fun it =>
            { id := it.ID, order_id := sampleOrder.ID, product_id := it.ProductID,
              quantity := it.Quantity, price_at_purchase := it.PriceAtPurchase })
      ∧ (∀ prod db2, (ProductRepository.Update db2 prod).order_items =
          db2.order_items)) :=
  ⟨rfl, CreateOrder_price_snapshot noFaults 0 sampleDB 7 0
    [{ ProductID := 1, Quantity := 3 }] sampleOrder rfl⟩

/-- Claim C5 — Total amount: on every successful call the returned order's
total equals the sum over its line items of price-at-purchase times
quantity (the prices being the locked-read prices by C4's theorem). -/
theorem CreateOrder_total_amount (faults : Faults) (gen : Nat) (db : DB)
    (userID now : Nat) (items : List OrderItemInput) (order : Order)
    (h : (OrderService.CreateOrder faults gen db userID now items).result =
      .ok order) :
    order.TotalAmount =
      (order.Items.map (fun it => it.PriceAtPurchase * (it.Quantity : ℚ))).sum := by
  obtain ⟨st, hp, horder, hdb⟩ :=
    CreateOrder_ok_spec faults gen db userID now items order h
  obtain ⟨⟨more, hitems, htotal, hprices⟩, hpr, hord, hoit, hnn⟩ :=
    processItems_ok_spec faults items _ _ hp
  have hitems' : st.items = more := by simpa using hitems
  rw [horder]
  show st.total = (st.items.map (fun it => it.PriceAtPurchase * (it.Quantity : ℚ))).sum
  rw [hitems', htotal]
  show (0 : ℚ) + _ = _
  rw [zero_add]

/-- Witness for C5 (Scenario A): quantity 10, order requests 3 — the order
succeeds and its total is price times 3. -/
theorem CreateOrder_total_amount_witness :
    (OrderService.CreateOrder noFaults 0 sampleDB 7 0
      [{ ProductID := 1, Quantity := 3 }]).result = Except.ok sampleOrder
    ∧ sampleOrder.TotalAmount =
        (sampleOrder.Items.map
          (fun it => it.PriceAtPurchase * (it.Quantity : ℚ))).sum
    ∧ sampleOrder.TotalAmount = 5 * 3 :=
  ⟨rfl,
    CreateOrder_total_amount noFaults 0 sampleDB 7 0
      [{ ProductID := 1, Quantity := 3 }] sampleOrder rfl,
    by norm_num [sampleOrder]⟩

/-- Claim C7 — Non-negative stock invariant: starting from a committed
state where every product quantity is non-negative, after any
`CreateOrder` call with strictly positive requested quantities — whether
it succeeds or fails — every product quantity is still non-negative (the
decrement is guarded by the availability check). -/
theorem CreateOrder_nonneg_stock (faults : Faults) (gen : Nat) (db : DB)
    (userID now : Nat) (items : List OrderItemInput)
    (hnn : ∀ p ∈ db.products, 0 ≤ p.Quantity)
    (_hpos : ∀ it ∈ items, 0 < it.Quantity) :
    ∀ p ∈ (OrderService.CreateOrder faults gen db userID now items).db.products,
      0 ≤ p.Quantity := by
  cases hr : (OrderService.CreateOrder faults gen db userID now items).result with
  | error e =>
    rw [CreateOrder_error_db faults gen db userID now items e hr]
    exact hnn
  | ok order =>
    obtain ⟨st, hp, horder, hdb⟩ :=
      CreateOrder_ok_spec faults gen db userID now items order hr
    rw [hdb]
    show ∀ p ∈ st.tx.products, 0 ≤ p.Quantity
    exact (processItems_ok_spec faults items _ _ hp).2.2.2.2 hnn

/-- Witness for C7: the sample call leaves the single product's quantity at
7, which is non-negative. -/
theorem CreateOrder_nonneg_stock_witness :
    (∀ p ∈ sampleDB.products, 0 ≤ p.Quantity)
    ∧ (∀ it ∈ [({ ProductID := 1, Quantity := 3 } : OrderItemInput)], 0 < it.Quantity)
    ∧ ∀ p ∈ (OrderService.CreateOrder noFaults 0 sampleDB 7 0
        [{ ProductID := 1, Quantity := 3 }]).db.products, 0 ≤ p.Quantity :=
  ⟨by decide, by decide,
    CreateOrder_nonneg_stock noFaults 0 sampleDB 7 0
      [{ ProductID := 1, Quantity := 3 }] (by decide) (by decide)⟩

/-- Claim C8 — Quantity-only update frame: `ProductRepository.UpdateTx`
changes at most the quantity column of rows whose id equals the given
product's id, keeps their id, description, tags and price, leaves every row
with a different id completely unchanged, and does not touch the orders or
order-items tables. -/
theorem UpdateTx_quantity_only_frame (tx : DB) (prod : Product) (i : Nat)
    (p p' : Product)
    (hp : tx.products[i]? = some p)
    (hp' : (ProductRepository.UpdateTx tx prod).products[i]? = some p') :
    p'.ID = p.ID ∧ p'.Description = p.Description ∧ p'.Tags = p.Tags
    ∧ p'.Price = p.Price
    ∧ (p.ID = prod.ID → p'.Quantity = prod.Quantity)
    ∧ (p.ID ≠ prod.ID → p' = p)
    ∧ (ProductRepository.UpdateTx tx prod).orders = tx.orders
    ∧ (ProductRepository.UpdateTx tx prod).order_items = tx.order_items := by
  have hmap : (ProductRepository.UpdateTx tx prod).products[i]? =
      (tx.products[i]?).map (fun q =>
        if q.ID == prod.ID then { q with Quantity := prod.Quantity } else q) := by
    show (tx.products.map _)[i]? = _
    rw [List.getElem?_map]
  rw [hp', hp] at hmap
  have hpeq : p' =
      if p.ID == prod.ID then { p with Quantity := prod.Quantity } else p :=
    Option.some.inj hmap
  by_cases hid : p.ID = prod.ID
  · rw [if_pos (beq_iff_eq.mpr hid)] at hpeq
    subst hpeq
    exact ⟨rfl, rfl, rfl, rfl, fun _ => rfl, fun hne => absurd hid hne, rfl, rfl⟩
  · rw [if_neg (by simp [hid])] at hpeq
    subst hpeq
    exact ⟨rfl, rfl, rfl, rfl, fun heq => absurd heq hid, fun _ => rfl, rfl, rfl⟩

/-- Witness for C8: updating the quantity of the sample product to 7
changes only that row's quantity. -/
theorem UpdateTx_quantity_only_frame_witness :
    sampleDB.products[0]? = some sampleProduct
    ∧ (ProductRepository.UpdateTx sampleDB
        { sampleProduct with Quantity := 7 }).products[0]? =
        some { sampleProduct with Quantity := 7 }
    ∧ ({ sampleProduct with Quantity := 7 } : Product).ID = sampleProduct.ID
    ∧ ({ sampleProduct with Quantity := 7 } : Product).Description =
        sampleProduct.Description
    ∧ ({ sampleProduct with Quantity := 7 } : Product).Tags = sampleProduct.Tags
    ∧ ({ sampleProduct with Quantity := 7 } : Product).Price = sampleProduct.Price
    ∧ (sampleProduct.ID = ({ sampleProduct with Quantity := 7 } : Product).ID →
        ({ sampleProduct with Quantity := 7 } : Product).Quantity = 7)
    ∧ (ProductRepository.UpdateTx sampleDB
        { sampleProduct with Quantity := 7 }).orders = sampleDB.orders :=
  have h := UpdateTx_quantity_only_frame sampleDB
    { sampleProduct with Quantity := 7 } 0 sampleProduct
    { sampleProduct with Quantity := 7 } rfl rfl
  ⟨rfl, rfl, h.1, h.2.1, h.2.2.1, h.2.2.2.1, fun hid => h.2.2.2.2.1 hid,
    h.2.2.2.2.2.2.1⟩

/-- Claim C9 — No validation of requested quantities: for an existing
product with non-negative stock, a single line item with quantity `q ≤ 0`
passes the availability check (`product.Quantity < q` is false), so the
call succeeds, produces an order item with quantity `q` (in particular
quantity 0 when `q = 0`), and stores quantity `old − q` for the product —
no change for `q = 0`, an increase for negative `q`. -/
theorem CreateOrder_no_quantity_validation (gen : Nat) (db : DB)
    (userID now pid : Nat) (q : Int) (p : Product)
    (hfind : ProductRepository.FindByIDTx db pid = some p)
    (hq : q ≤ 0) (hp : 0 ≤ p.Quantity) :
    (OrderService.CreateOrder noFaults gen db userID now
        [{ ProductID := pid, Quantity := q }]).result =
      Except.ok { ID := gen, UserID := userID,
                  Items := [{ ID := gen + 1, ProductID := pid, Quantity := q,
                              PriceAtPurchase := p.Price }],
                  CreatedAt := now, TotalAmount := 0 + p.Price * (q : ℚ) }
    ∧ ProductRepository.FindByIDTx
        (OrderService.CreateOrder noFaults gen db userID now
          [{ ProductID := pid, Quantity := q }]).db pid =
        some { p with Quantity := p.Quantity - q } := by
  have hnotlt : ¬ p.Quantity < q := not_lt.mpr (le_trans hq hp)
  have hrun : OrderService.processItems noFaults
      (OrderService.initState db gen) [{ ProductID := pid, Quantity := q }] =
      .ok { tx := ProductRepository.UpdateTx db { p with Quantity := p.Quantity - q },
            items := [{ ID := gen + 1, ProductID := pid, Quantity := q,
                        PriceAtPurchase := p.Price }],
            total := 0 + p.Price * (q : ℚ), gen := gen + 1 + 1,
            updateCalls := 0 + 1 } := by
    rw [OrderService.processItems]
    simp only [OrderService.initState]
    simp only [hfind]
    rw [if_neg hnotlt]
    rfl
  constructor
  · unfold OrderService.CreateOrder
    rw [hrun]
    exact rfl
  · unfold OrderService.CreateOrder
    rw [hrun]
    show ProductRepository.FindByIDTx
      (ProductRepository.UpdateTx db { p with Quantity := p.Quantity - q }) pid =
      some { p with Quantity := p.Quantity - q }
    rw [FindByIDTx_UpdateTx, hfind]
    simp

/-- Witness for C9: quantity 0 leaves the stock at 10; quantity −2 raises
it to 12; both calls succeed. -/
theorem CreateOrder_no_quantity_validation_witness :
    (ProductRepository.FindByIDTx sampleDB 1 = some sampleProduct
      ∧ (0 : Int) ≤ 0 ∧ 0 ≤ sampleProduct.Quantity
      ∧ (OrderService.CreateOrder noFaults 0 sampleDB 7 0
          [{ ProductID := 1, Quantity := 0 }]).result =
          Except.ok { ID := 0, UserID := 7,
                      Items := [{ ID := 1, ProductID := 1, Quantity := 0,
                                  PriceAtPurchase := 5 }],
                      CreatedAt := 0, TotalAmount := 0 + 5 * ((0 : Int) : ℚ) }
      ∧ ProductRepository.FindByIDTx
          (OrderService.CreateOrder noFaults 0 sampleDB 7 0
            [{ ProductID := 1, Quantity := 0 }]).db 1 =
          some { sampleProduct with Quantity := sampleProduct.Quantity - 0 })
    ∧ ((-2 : Int) ≤ 0
      ∧ (OrderService.CreateOrder noFaults 0 sampleDB 7 0
          [{ ProductID := 1, Quantity := -2 }]).result =
          Except.ok { ID := 0, UserID := 7,
                      Items := [{ ID := 1, ProductID := 1, Quantity := -2,
                                  PriceAtPurchase := 5 }],
                      CreatedAt := 0, TotalAmount := 0 + 5 * ((-2 : Int) : ℚ) }
      ∧ ProductRepository.FindByIDTx
          (OrderService.CreateOrder noFaults 0 sampleDB 7 0
            [{ ProductID := 1, Quantity := -2 }]).db 1 =
          some { sampleProduct with Quantity := sampleProduct.Quantity - (-2) }) :=
  have h0 := CreateOrder_no_quantity_validation 0 sampleDB 7 0 1 0 sampleProduct
    rfl (by decide) (by decide)
  have h2 := CreateOrder_no_quantity_validation 0 sampleDB 7 0 1 (-2) sampleProduct
    rfl (by decide) (by decide)
  ⟨⟨rfl, by decide, by decide, h0.1, h0.2⟩, ⟨by decide, h2.1, h2.2⟩⟩

/-- Claim C10 — Empty item list: `CreateOrder` with no items does not fail;
it skips the loop, inserts an order header with total 0 and no item rows,
commits, and returns the empty order — the non-empty-list precondition is
not enforced inside the workflow. -/
theorem CreateOrder_empty_items (gen : Nat) (db : DB) (userID now : Nat) :
    (OrderService.CreateOrder noFaults gen db userID now []).result =
      Except.ok { ID := gen, UserID := userID, Items := [],
                  CreatedAt := now, TotalAmount := 0 }
    ∧ (OrderService.CreateOrder noFaults gen db userID now []).db.products =
        db.products
    ∧ (OrderService.CreateOrder noFaults gen db userID now []).db.orders =
        db.orders ++ [{ id := gen, user_id := userID, created_at := now,
                        total_amount := 0 }]
    ∧ (OrderService.CreateOrder noFaults gen db userID now []).db.order_items =
        db.order_items := by
  refine ⟨rfl, rfl, rfl, ?_⟩
  show db.order_items ++ List.map _ [] = db.order_items
  simp
